import Mathlib

/-!
Verification of the `ip_tracking` Django application (IP-reputation pipeline):
a shallow embedding of its middleware (request gate, geolocation resolver with
a two-tier cache), the `block_ip` management command, and the anomaly-detection
task, together with theorems settling the specification's claims.

Time is modelled in seconds as `Nat`; the database stores are modelled as
lists of rows; the Django in-process cache is an association list from key
(here: the IP string) to the cached value plus its set-time; the remote
geolocation service is an explicit function parameter.
-/

set_option maxRecDepth 8000

namespace IpTracking

/-- Python truthiness of an optional string: `None` and `""` are falsy. -/
def pyTruthy : Option String → Bool
  | none => false
  | some s => s ≠ ""

/-- Python `x or default` on an optional string
(`save_to_db_cache`: `country or 'Unknown'`). -/
def pyOrDefault : Option String → String → String
  | none, d => d
  | some s, d => if s = "" then d else s

/-- Display of an optional string inside a Python f-string (`None` prints as `"None"`). -/
def pyStr : Option String → String
  | none => "None"
  | some s => s

/-- Python's default `str.strip` whitespace, restricted to ASCII. -/
def isPyWhitespace (c : Char) : Bool :=
  c = ' ' || c = '\t' || c = '\n' || c = '\r' || c = '\x0b' || c = '\x0c'

/-- Python `s.strip()`: drop leading and trailing whitespace. -/
def pyStrip (s : String) : String :=
  ⟨((s.data.dropWhile isPyWhitespace).reverse.dropWhile isPyWhitespace).reverse⟩

/-- Helper for `pySplitComma`: accumulates the current (reversed) chunk. -/
def splitCommaAux : List Char → List Char → List String
  | [], acc => [⟨acc.reverse⟩]
  | c :: rest, acc =>
      if c = ',' then ⟨acc.reverse⟩ :: splitCommaAux rest []
      else splitCommaAux rest (c :: acc)

/-- Python `s.split(',')`: split at every comma, keeping empty chunks
(so the result is always non-empty). -/
def pySplitComma (s : String) : List String := splitCommaAux s.data []

/-- Python `s.startswith(p)`. -/
def pyStartsWith (s p : String) : Bool := p.data.isPrefixOf s.data

/-- `IPTrackingMiddleware.get_client_ip` (middleware.py 31-41): a truthy
`HTTP_X_FORWARDED_FOR` header yields its first comma-separated entry,
stripped; otherwise `REMOTE_ADDR` is used. An empty header string is falsy
in Python, hence falls back to `REMOTE_ADDR`. -/
def get_client_ip (xff remoteAddr : Option String) : Option String :=
  match xff with
  | some s => if s = "" then remoteAddr else some (pyStrip ((pySplitComma s).headD ""))
  | none => remoteAddr

/-- `IPTrackingMiddleware.is_private_ip` (middleware.py 79-90). -/
def is_private_ip (ip : String) : Bool :=
  if ip = "127.0.0.1" || ip = "localhost" then true
  else if pyStartsWith ip "10." || pyStartsWith ip "192.168." ||
      pyStartsWith ip "172." then
    true
  else false

/-- An in-process (Django `cache`) geolocation entry: the cached country/city
and the time `cache.set` stored it. -/
structure MemCacheEntry where
  country : Option String
  city : Option String
  setAt : Nat
deriving DecidableEq, Repr

/-- The in-process cache timeout used by `cache_geolocation`:
`60*60*24` seconds. -/
def memTimeout : Nat := 60 * 60 * 24

/-- `GeolocationCache` model row (models.py 41-59): durable cache entry,
`timestamp` is `auto_now_add` (set at creation only). -/
structure GeolocationCache where
  ip_address : String
  country : String
  city : String
  timestamp : Nat
deriving DecidableEq, Repr

/-- `GeolocationCache.is_expired` (models.py 58-59):
`timezone.now() > self.timestamp + timedelta(hours=24)`. -/
def GeolocationCache.is_expired (e : GeolocationCache) (now : Nat) : Bool :=
  e.timestamp + 60 * 60 * 24 < now

/-- `IPTrackingMiddleware.get_cached_geolocation` (middleware.py 92-97):
a Django-cache read; an entry past its timeout is a miss. -/
def get_cached_geolocation (mem : List (String × MemCacheEntry)) (ip : String)
    (now : Nat) : Option MemCacheEntry :=
  match mem.lookup ip with
  | some e => if now < e.setAt + memTimeout then some e else none
  | none => none

/-- `IPTrackingMiddleware.cache_geolocation` (middleware.py 99-109):
`cache.set` with a 24-hour timeout, replacing any entry under the same key. -/
def cache_geolocation (mem : List (String × MemCacheEntry)) (ip : String)
    (country city : Option String) (now : Nat) : List (String × MemCacheEntry) :=
  (ip, ⟨country, city, now⟩) :: mem.filter (fun p => p.1 ≠ ip)

/-- `IPTrackingMiddleware.get_db_cached_geolocation` (middleware.py 111-124):
returns the unexpired row for `ip` if any; an expired row is deleted and
treated as absent. Also returns the store after the possible deletion. -/
def get_db_cached_geolocation (db : List GeolocationCache) (ip : String)
    (now : Nat) : Option GeolocationCache × List GeolocationCache :=
  match db.find? (fun e => e.ip_address = ip) with
  | some e =>
      if e.is_expired now then (none, db.filter (fun x => x.ip_address ≠ ip))
      else (some e, db)
  | none => (none, db)

/-- `IPTrackingMiddleware.save_to_db_cache` (middleware.py 126-141):
`update_or_create` keyed by `ip_address` with defaults
`country or 'Unknown'` and `city or 'Unknown'`; an update leaves the
`auto_now_add` timestamp unchanged, a create stamps it with `now`. -/
def save_to_db_cache (db : List GeolocationCache) (ip : String)
    (country city : Option String) (now : Nat) : List GeolocationCache :=
  if db.any (fun e => e.ip_address = ip) then
    db.map (fun e =>
      if e.ip_address = ip then
        { e with country := pyOrDefault country "Unknown",
                 city := pyOrDefault city "Unknown" }
      else e)
  else
    db ++ [⟨ip, pyOrDefault country "Unknown", pyOrDefault city "Unknown", now⟩]

/-- Result of `get_geolocation_data`: the returned pair, both cache tiers
after the call, and how many remote (`fetch_geolocation_from_api`) lookups
the call performed. -/
structure ResolveResult where
  country : Option String
  city : Option String
  mem : List (String × MemCacheEntry)
  db : List GeolocationCache
  lookups : Nat
deriving DecidableEq, Repr

/-- `IPTrackingMiddleware.get_geolocation_data` (middleware.py 49-77).
`api` stands for `fetch_geolocation_from_api`: it never raises (the source
swallows exceptions and returns `(None, None)`), so it is a total function
returning the optional country and city. The write-back after a fetch is
guarded by Python's `if country or city:`. -/
def get_geolocation_data (api : String → Option String × Option String)
    (ip : String) (now : Nat) (mem : List (String × MemCacheEntry))
    (db : List GeolocationCache) : ResolveResult :=
  if is_private_ip ip then ⟨none, none, mem, db, 0⟩
  else
    match get_cached_geolocation mem ip now with
    | some e => ⟨e.country, e.city, mem, db, 0⟩
    | none =>
      match get_db_cached_geolocation db ip now with
      | (some e, db1) =>
          ⟨some e.country, some e.city,
           cache_geolocation mem ip (some e.country) (some e.city) now, db1, 0⟩
      | (none, db1) =>
          let c := (api ip).1
          let ci := (api ip).2
          if pyTruthy c || pyTruthy ci then
            ⟨c, ci, cache_geolocation mem ip c ci now,
             save_to_db_cache db1 ip c ci now, 1⟩
          else ⟨c, ci, mem, db1, 1⟩

/-- `RequestLog` model row (models.py 5-24); `timestamp` is `auto_now_add`. -/
structure RequestLog where
  ip_address : String
  timestamp : Nat
  path : String
  country : Option String
  city : Option String
deriving DecidableEq, Repr

/-- `BlockedIP` model row (models.py 27-38); `ip_address` carries a unique
constraint, `created_at` is `auto_now_add`. -/
structure BlockedIP where
  ip_address : String
  created_at : Nat
  reason : Option String
deriving DecidableEq, Repr

/-- `IPTrackingMiddleware.is_ip_blocked` (middleware.py 43-47):
`BlockedIP.objects.filter(ip_address=ip).exists()`; a `None` client address
matches no row. -/
def is_ip_blocked (blocked : List BlockedIP) (ip : Option String) : Bool :=
  match ip with
  | none => false
  | some a => blocked.any (fun b => b.ip_address = a)

/-- The response the middleware hands back to the framework:
`forbidden` is the `HttpResponseForbidden` short-circuit, `app` wraps the
downstream `get_response` body, and `failure` marks the edge case in which
an exception escapes the middleware (a request without a resolvable client
address cannot be logged: `RequestLog.objects.create` raises on the null
address both in the `try` block and again in its `except` handler). -/
inductive GateResponse
  | forbidden (body : String)
  | app (body : String)
  | failure
deriving DecidableEq, Repr

/-- The stores the middleware touches: the block list, the request log, and
the two geolocation cache tiers. -/
structure MwState where
  blocked : List BlockedIP
  log : List RequestLog
  mem : List (String × MemCacheEntry)
  db : List GeolocationCache
deriving DecidableEq, Repr

/-- The request attributes the middleware consumes: the two address headers
and the path. -/
structure HttpRequest where
  xff : Option String
  remoteAddr : Option String
  path : String
deriving DecidableEq, Repr

/-- `IPTrackingMiddleware.log_request` (middleware.py 167-196) on a request
whose client address resolved to `ip`: annotate via the resolver and append
one `RequestLog` row (`timestamp` is `auto_now_add`). -/
def log_request (api : String → Option String × Option String) (now : Nat)
    (st : MwState) (ip : String) (path : String) : MwState :=
  let r := get_geolocation_data api ip now st.mem st.db
  { st with
    log := st.log ++ [⟨ip, now, path, r.country, r.city⟩],
    mem := r.mem, db := r.db }

/-- `IPTrackingMiddleware.__call__` (middleware.py 14-29): resolve the client
address, reject with a 403 carrying the address if it is blocked (no record
is created), otherwise run the wrapped application (`inner` stands for
`get_response`) and then log the request. -/
def middleware_call (api : String → Option String × Option String)
    (inner : HttpRequest → String) (now : Nat) (st : MwState)
    (req : HttpRequest) : GateResponse × MwState :=
  let clientIp := get_client_ip req.xff req.remoteAddr
  if is_ip_blocked st.blocked clientIp then
    (GateResponse.forbidden
       ("Access denied. Your IP address (" ++ pyStr clientIp ++
        ") has been blocked."),
     st)
  else
    match clientIp with
    | some a => (GateResponse.app (inner req), log_request api now st a req.path)
    | none => (GateResponse.failure, st)

/-- Outcome of the `block_ip` management command: the block list afterwards
and the command's two counters. -/
structure CommandOutcome where
  store : List BlockedIP
  blocked_count : Nat
  skipped_count : Nat
deriving DecidableEq, Repr

/-- One loop iteration of `Command.handle` (block_ip.py 28-59): skip an
address that fails field validation (`valid` stands for
`GenericIPAddressField.to_python`, framework code), skip an address that is
already blocked, otherwise create the row. No branch raises. -/
def block_ip_step (valid : String → Bool) (reason : Option String) (now : Nat)
    (o : CommandOutcome) (ip : String) : CommandOutcome :=
  if valid ip = false then
    { o with skipped_count := o.skipped_count + 1 }
  else if o.store.any (fun b => b.ip_address = ip) then
    { o with skipped_count := o.skipped_count + 1 }
  else
    { o with store := o.store ++ [⟨ip, now, reason⟩],
             blocked_count := o.blocked_count + 1 }

/-- `Command.handle` of the `block_ip` command (block_ip.py 21-66) over its
positional `ip_addresses` and optional `--reason`. -/
def block_ip_handle (valid : String → Bool) (store : List BlockedIP)
    (ips : List String) (reason : Option String) (now : Nat) : CommandOutcome :=
  ips.foldl (block_ip_step valid reason now) ⟨store, 0, 0⟩

/-- `SuspiciousIP` model row (models.py 62-115): `first_detected` is
`auto_now_add` (set at creation only), `last_detected` is `auto_now`
(refreshed on every save). -/
@[ext]
structure SuspiciousIP where
  ip_address : String
  reason : String
  request_count : Nat
  first_detected : Nat
  last_detected : Nat
  is_active : Bool
  sensitive_paths : Option String
  country : Option String
  city : Option String
deriving DecidableEq, Repr

/-- A dummy row used only as the `List.getD` fallback in statements. -/
def dummyS : SuspiciousIP := ⟨"", "", 0, 0, 0, true, none, none, none⟩

/-- One per-address update of a detection heuristic: the candidate address
and the `reason`, `request_count`, `country`, `city` it carries into the
upsert. -/
structure Upd where
  ip : String
  reason : String
  cnt : Nat
  country : Option String
  city : Option String
deriving DecidableEq, Repr

/-- The pointwise effect of a detector update on a registry row: a matching
row gets the new `reason` and `request_count` and a refreshed
`last_detected` (the `auto_now` save), any other row is untouched. -/
def entUpd (u : Upd) (now : Nat) (e : SuspiciousIP) : SuspiciousIP :=
  if e.ip_address = u.ip then
    { e with reason := u.reason, request_count := u.cnt, last_detected := now }
  else e

/-- Pointwise effect of a whole candidate list, in order. -/
def entUpds (us : List Upd) (now : Nat) (e : SuspiciousIP) : SuspiciousIP :=
  us.foldl (fun x u => entUpd u now x) e

/-- The row `get_or_create` creates for a fresh candidate (tasks.py 70-78):
`is_active` defaults to `true`, both timestamps are stamped `now`. -/
def freshS (u : Upd) (now : Nat) : SuspiciousIP :=
  ⟨u.ip, u.reason, u.cnt, now, now, true, none, u.country, u.city⟩

/-- The per-address upsert of the detector (tasks.py 69-84):
`get_or_create` keyed by `ip_address` with create defaults, else update
`reason` and `request_count` and save — the `auto_now` column
`last_detected` is refreshed by the save. The source file is truncated in
the middle of this update branch (`suspicious_ip.last`); its remainder is
modelled from the spec (§4.3): update `reason`, `observed_count`,
`last_seen`, leaving `first_seen` and `active` untouched. -/
def upsertSuspicious (reg : List SuspiciousIP) (u : Upd) (now : Nat) :
    List SuspiciousIP :=
  if reg.any (fun e => e.ip_address = u.ip) then
    reg.map (entUpd u now)
  else
    reg ++ [freshS u now]

/-- The addresses carried by a candidate list. -/
def updKeys (us : List Upd) : List String := us.map (fun u => u.ip)

/-- The addresses present in a registry. -/
def ipsOf (reg : List SuspiciousIP) : List String :=
  reg.map (fun e => e.ip_address)

/-- Apply a heuristic's candidate list in order. -/
def applyUpds (us : List Upd) (now : Nat) (reg : List SuspiciousIP) :
    List SuspiciousIP :=
  us.foldl (fun r u => upsertSuspicious r u now) reg

/-- Count of an address's log rows with `timestamp >= one_hour_ago`
(tasks.py 47-53; the queryset places no upper bound on `timestamp`). -/
def inWindowCount (logs : List RequestLog) (ip : String)
    (one_hour_ago : Nat) : Nat :=
  (logs.filter (fun l => l.ip_address = ip && one_hour_ago ≤ l.timestamp)).length

/-- The high-frequency queryset (tasks.py 47-53): group in-window rows by
address (`values('ip_address').annotate(Count('id'))`) and keep the groups
with strictly more than 100 rows, paired with their counts. -/
def hfCandidates (logs : List RequestLog) (one_hour_ago : Nat) :
    List (String × Nat) :=
  ((logs.map (fun l => l.ip_address)).dedup.filter
      (fun ip => 100 < inWindowCount logs ip one_hour_ago)).map
    (fun ip => (ip, inWindowCount logs ip one_hour_ago))

/-- `RequestLog.objects.filter(ip_address=...).order_by('-timestamp').first()`
(tasks.py 62-64): the first row of maximal timestamp, over the whole log
(not window-restricted). Among equal timestamps the database order is
unspecified; the model keeps the earliest listed. -/
def latestRequest (logs : List RequestLog) (ip : String) : Option RequestLog :=
  (logs.filter (fun l => l.ip_address = ip)).foldl
    (fun acc l =>
      match acc with
      | none => some l
      | some b => if b.timestamp < l.timestamp then some l else acc)
    none

/-- The candidate updates of `detect_high_frequency_ips` (tasks.py 43-84):
reason string, group count, and the latest request's location. -/
def hfUpds (logs : List RequestLog) (one_hour_ago : Nat) : List Upd :=
  (hfCandidates logs one_hour_ago).map (fun p =>
    ⟨p.1,
     "High request frequency: " ++ toString p.2 ++ " requests in the last hour",
     p.2,
     (latestRequest logs p.1).bind (fun l => l.country),
     (latestRequest logs p.1).bind (fun l => l.city)⟩)

/-- `detect_high_frequency_ips` (tasks.py 43-84): upsert every
high-frequency candidate in order. -/
def detect_high_frequency_ips (logs : List RequestLog) (one_hour_ago now : Nat)
    (reg : List SuspiciousIP) : List SuspiciousIP :=
  applyUpds (hfUpds logs one_hour_ago) now reg

/-- `SuspiciousIP.get_sensitive_paths` (models.py 93-115). -/
def get_sensitive_paths : List String :=
  ["/admin/", "/admin", "/login/", "/login", "/api/", "/api/auth/", "/user/",
   "/users/", "/account/", "/accounts/", "/password-reset/",
   "/reset-password/", "/sensitive-action/", "/dashboard/", "/request-logs/",
   "/blocked-ips/"]

/-- Helper for Python's substring `in`: does `needle` occur contiguously in
the haystack? -/
def containsAux (needle : List Char) : List Char → Bool
  | [] => needle.isEmpty
  | c :: rest => needle.isPrefixOf (c :: rest) || containsAux needle rest

/-- Python `needle in hay` on strings (contiguous substring). -/
def pyContains (needle hay : String) : Bool := containsAux needle.data hay.data

/-- `SuspiciousIP.is_sensitive_path` (models.py 117-123): Python's
substring `in`, not a prefix test. -/
def is_sensitive_path (path : String) : Bool :=
  get_sensitive_paths.any (fun p => pyContains p path)

/-- Modelled from the spec: the body of `detect_sensitive_path_access` is
missing from src (tasks.py is truncated after line 84). §4.3 heuristic 2:
flag any address with at least one in-window record whose path matches the
sensitive set (substring-based, via `SuspiciousIP.is_sensitive_path` which
models.py does provide); the candidate carries a reason and the count of
such accesses, and is upserted like the other heuristics. -/
def sensCount (logs : List RequestLog) (ip : String) (one_hour_ago : Nat) : Nat :=
  (logs.filter (fun l =>
    l.ip_address = ip && one_hour_ago ≤ l.timestamp &&
      is_sensitive_path l.path)).length

/-- Modelled from the spec: candidate updates of
`detect_sensitive_path_access` (see `sensCount`). -/
def sensUpds (logs : List RequestLog) (one_hour_ago : Nat) : List Upd :=
  (((logs.map (fun l => l.ip_address)).dedup.filter
      (fun ip => 0 < sensCount logs ip one_hour_ago)).map
    (fun ip => (ip, sensCount logs ip one_hour_ago))).map (fun p =>
      ⟨p.1,
       "Sensitive path access: " ++ toString p.2 ++
         " sensitive requests in the last hour",
       p.2,
       (latestRequest logs p.1).bind (fun l => l.country),
       (latestRequest logs p.1).bind (fun l => l.city)⟩)

/-- Modelled from the spec: `detect_sensitive_path_access` (missing from
the truncated src), upserting every sensitive-path candidate in order. -/
def detect_sensitive_path_access (logs : List RequestLog)
    (one_hour_ago now : Nat) (reg : List SuspiciousIP) : List SuspiciousIP :=
  applyUpds (sensUpds logs one_hour_ago) now reg

/-- Modelled from the spec: `detect_scanning_behavior` (missing from the
truncated src). §4.3 heuristic 3 needs per-request response statuses;
`RequestLog` stores none, so per the spec the heuristic is skipped without
failing the run. -/
def detect_scanning_behavior (_logs : List RequestLog) (_one_hour_ago _now : Nat)
    (reg : List SuspiciousIP) : List SuspiciousIP :=
  reg

/-- Modelled from the spec: the pointwise effect of the cleanup step on one
row — deactivate it when it was last detected before `now - age`. -/
def cleanFn (now age : Nat) (e : SuspiciousIP) : SuspiciousIP :=
  if e.last_detected < now - age then { e with is_active := false } else e

/-- Modelled from the spec: `cleanup_old_suspicious_ips` (missing from the
truncated src). §3: no entry is ever deleted, only deactivated; entries not
detected for longer than a configured age are marked inactive (a queryset
update, which does not touch the `auto_now` column). -/
def cleanup_old_suspicious_ips (now age : Nat) (reg : List SuspiciousIP) :
    List SuspiciousIP :=
  reg.map (cleanFn now age)

/-- `detect_suspicious_ips` (tasks.py 12-41) on its fault-free path: the
four steps run in order; `one_hour_ago = timezone.now() - 1 hour`, so the
analysis window is determined by `now`. -/
def detect_suspicious_ips (logs : List RequestLog) (now age : Nat)
    (reg : List SuspiciousIP) : List SuspiciousIP :=
  cleanup_old_suspicious_ips now age
    (detect_scanning_behavior logs (now - 3600) now
      (detect_sensitive_path_access logs (now - 3600) now
        (detect_high_frequency_ips logs (now - 3600) now reg)))

/-- A detection step as run inside the single `try` of
`detect_suspicious_ips`: it either completes with the new registry, or
raises, leaving the registry as already mutated by its committed
per-address transactions. -/
inductive StepResult
  | ok (reg : List SuspiciousIP)
  | exn (msg : String) (reg : List SuspiciousIP)

/-- The task's returned dict: `{"status": ..., "message": ...}`. -/
structure TaskResult where
  status : String
  message : String
deriving DecidableEq, Repr

/-- The control flow of `detect_suspicious_ips` (tasks.py 18-41): all steps
run sequentially inside one `try`; the first exception aborts every
remaining step and is reported as `{"status": "error", "message": str(e)}`;
if none raises the task reports success. The steps are parameters so that
a storage fault inside one heuristic can be represented. -/
def run_task : List (List SuspiciousIP → StepResult) → List SuspiciousIP →
    TaskResult × List SuspiciousIP
  | [], reg => (⟨"success", "Anomaly detection completed"⟩, reg)
  | s :: rest, reg =>
      match s reg with
      | .ok r => run_task rest r
      | .exn msg r => (⟨"error", msg⟩, r)

/-- A concrete faulting step (a storage error during a heuristic). -/
def failStep : List SuspiciousIP → StepResult :=
  fun r => .exn "database error" r

/-- A concrete succeeding heuristic step that flags `198.51.100.77`. -/
def flagStep : List SuspiciousIP → StepResult :=
  fun r => .ok (upsertSuspicious r ⟨"198.51.100.77", "Sensitive path access", 1, none, none⟩ 42)

/-- Modelled from the spec (for comparison with the code): the claimed
high-frequency window `[window_end - 1 hour, window_end)` record count. -/
def specWindowCount (logs : List RequestLog) (ip : String)
    (ws we : Nat) : Nat :=
  (logs.filter (fun l =>
    l.ip_address = ip && ws ≤ l.timestamp && l.timestamp < we)).length

/-- Concrete log used in the C8 counterexample: 101 requests from one
address, all timestamped exactly at the window end. -/
def logs0 : List RequestLog :=
  List.replicate 101 ⟨"9.9.9.9", 7200, "/", none, none⟩

/-- A concrete one-row registry used in witnesses. -/
def reg1 : List SuspiciousIP :=
  [⟨"9.9.9.9", "old reason", 5, 10, 20, true, none, none, none⟩]

/-- The modelled-from-the-spec notion of a private-range address for §4.1:
the loopback block `127.0.0.0/8` plus the three RFC1918 blocks
`10.0.0.0/8`, `172.16.0.0/12`, `192.168.0.0/16` (dotted-quad prefixes). -/
def spec_private_range (ip : String) : Bool :=
  pyStartsWith ip "127." || pyStartsWith ip "10." || pyStartsWith ip "192.168." ||
  ["172.16.", "172.17.", "172.18.", "172.19.", "172.20.", "172.21.",
   "172.22.", "172.23.", "172.24.", "172.25.", "172.26.", "172.27.",
   "172.28.", "172.29.", "172.30.", "172.31."].any (fun p => pyStartsWith ip p)

/-- A concrete remote geolocation service used in counterexamples. -/
def capi : String → Option String × Option String :=
  fun _ => (some "Testland", some "Testville")

/-- A concrete remote geolocation service that yields no fields (the same
observable outcome as a swallowed network error or an empty response). -/
def napi : String → Option String × Option String := fun _ => (none, none)

/-- A concrete wrapped application (`get_response`) used in witnesses. -/
def inner0 : HttpRequest → String := fun _ => "OK"

/-- A concrete middleware state whose block list holds `1.2.3.4`. -/
def st0 : MwState := ⟨[⟨"1.2.3.4", 0, none⟩], [], [], []⟩

/-- A concrete request from `1.2.3.4` with no X-Forwarded-For header. -/
def req0 : HttpRequest := ⟨none, some "1.2.3.4", "/somewhere"⟩

/-- A concrete unblocked request from `8.8.8.8`. -/
def req1 : HttpRequest := ⟨none, some "8.8.8.8", "/somewhere"⟩

/-- C3 counterexample: `127.0.0.2` is a loopback (hence private-range)
address, yet `is_private_ip` does not recognise it, so `resolve` on an
empty cache performs a remote lookup and returns a present location. -/
theorem C3_counterexample :
    spec_private_range "127.0.0.2" = true ∧
    is_private_ip "127.0.0.2" = false ∧
    (get_geolocation_data capi "127.0.0.2" 0 [] []).lookups = 1 ∧
    (get_geolocation_data capi "127.0.0.2" 0 [] []).country = some "Testland" := by
  refine ⟨by decide, by decide, ?_, ?_⟩ <;> rfl

/-- C3 (amended): for every address that `is_private_ip` recognises —
exactly `127.0.0.1`, `localhost`, and addresses starting with `10.`,
`192.168.` or `172.` (a superset of RFC1918, but only a single loopback
address) — `get_geolocation_data` returns absent country and city, performs
no remote lookup, and leaves both cache tiers untouched. -/
theorem C3_private_short_circuit (api : String → Option String × Option String)
    (ip : String) (now : Nat) (mem : List (String × MemCacheEntry))
    (db : List GeolocationCache) (h : is_private_ip ip = true) :
    get_geolocation_data api ip now mem db = ⟨none, none, mem, db, 0⟩ := by
  unfold get_geolocation_data
  simp [h]

/-- Witness for C3's amended theorem at the concrete address `10.0.0.1`. -/
theorem C3_private_short_circuit_witness :
    is_private_ip "10.0.0.1" = true ∧
    get_geolocation_data capi "10.0.0.1" 0 [] [] = ⟨none, none, [], [], 0⟩ :=
  ⟨by decide, C3_private_short_circuit capi "10.0.0.1" 0 [] [] (by decide)⟩

/-- C10 counterexample: with an X-Forwarded-For header that is present but
empty, the code falls back to `REMOTE_ADDR`, while the claim prescribes the
first comma-separated entry of the header (the empty string). -/
theorem C10_counterexample :
    get_client_ip (some "") (some "1.2.3.4") = some "1.2.3.4" ∧
    some (pyStrip ((pySplitComma "").headD "")) = some "" ∧
    ("1.2.3.4" : String) ≠ "" := by
  refine ⟨rfl, by decide, by decide⟩

/-- C10 (amended): the client address is the first comma-separated entry of
the X-Forwarded-For header, whitespace-stripped, whenever that header is
present and non-empty; otherwise (header absent, or present but empty) it
is the transport-level `REMOTE_ADDR`. -/
theorem C10_client_ip (s : String) (remote : Option String) :
    (s ≠ "" → get_client_ip (some s) remote =
        some (pyStrip ((pySplitComma s).headD ""))) ∧
    get_client_ip (some "") remote = remote ∧
    get_client_ip none remote = remote := by
  refine ⟨fun h => ?_, ?_, rfl⟩
  · unfold get_client_ip
    simp [h]
  · unfold get_client_ip
    simp

/-- Witness for C10's amended theorem at the concrete header
`" 9.9.9.9 , 8.8.8.8"`. -/
theorem C10_client_ip_witness :
    (" 9.9.9.9 , 8.8.8.8" : String) ≠ "" ∧
    get_client_ip (some " 9.9.9.9 , 8.8.8.8") (some "1.1.1.1") = some "9.9.9.9" :=
  ⟨by decide, by
    have h := (C10_client_ip " 9.9.9.9 , 8.8.8.8" (some "1.1.1.1")).1 (by decide)
    exact h.trans (by decide)⟩

/-- Branch lemma: `get_geolocation_data` on an in-process cache hit. -/
theorem resolve_mem_hit (api : String → Option String × Option String)
    (ip : String) (now : Nat) (mem : List (String × MemCacheEntry))
    (db : List GeolocationCache) (e : MemCacheEntry)
    (hpriv : is_private_ip ip = false)
    (hmem : get_cached_geolocation mem ip now = some e) :
    get_geolocation_data api ip now mem db = ⟨e.country, e.city, mem, db, 0⟩ := by
  unfold get_geolocation_data
  simp [hpriv, hmem]

/-- Branch lemma: `get_geolocation_data` on a mem miss and a durable hit. -/
theorem resolve_db_hit (api : String → Option String × Option String)
    (ip : String) (now : Nat) (mem : List (String × MemCacheEntry))
    (db : List GeolocationCache) (e : GeolocationCache)
    (hpriv : is_private_ip ip = false)
    (hmem : get_cached_geolocation mem ip now = none)
    (hdb : (get_db_cached_geolocation db ip now).1 = some e) :
    get_geolocation_data api ip now mem db =
      ⟨some e.country, some e.city,
       cache_geolocation mem ip (some e.country) (some e.city) now,
       (get_db_cached_geolocation db ip now).2, 0⟩ := by
  have hpair : get_db_cached_geolocation db ip now =
      (some e, (get_db_cached_geolocation db ip now).2) := by
    rw [← hdb]
  unfold get_geolocation_data
  rw [hpair]
  simp [hpriv, hmem]

/-- Branch lemma: `get_geolocation_data` on a double cache miss performs the
remote fetch and writes back exactly when Python's `country or city` is
truthy. -/
theorem resolve_fetch (api : String → Option String × Option String)
    (ip : String) (now : Nat) (mem : List (String × MemCacheEntry))
    (db : List GeolocationCache)
    (hpriv : is_private_ip ip = false)
    (hmem : get_cached_geolocation mem ip now = none)
    (hdb : (get_db_cached_geolocation db ip now).1 = none) :
    get_geolocation_data api ip now mem db =
      if pyTruthy (api ip).1 || pyTruthy (api ip).2 then
        ⟨(api ip).1, (api ip).2,
         cache_geolocation mem ip (api ip).1 (api ip).2 now,
         save_to_db_cache (get_db_cached_geolocation db ip now).2 ip
           (api ip).1 (api ip).2 now, 1⟩
      else
        ⟨(api ip).1, (api ip).2, mem, (get_db_cached_geolocation db ip now).2, 1⟩ := by
  have hpair : get_db_cached_geolocation db ip now =
      (none, (get_db_cached_geolocation db ip now).2) := by
    rw [← hdb]
  unfold get_geolocation_data
  rw [hpair]
  simp [hpriv, hmem]

/-- Any single `get_geolocation_data` call performs at most one remote
lookup. -/
theorem resolve_lookups_le_one (api : String → Option String × Option String)
    (ip : String) (now : Nat) (mem : List (String × MemCacheEntry))
    (db : List GeolocationCache) :
    (get_geolocation_data api ip now mem db).lookups ≤ 1 := by
  cases hpriv : is_private_ip ip with
  | true => simp [get_geolocation_data, hpriv]
  | false =>
    cases hmem : get_cached_geolocation mem ip now with
    | some e => rw [resolve_mem_hit api ip now mem db e hpriv hmem]; exact Nat.zero_le 1
    | none =>
      cases hdb : (get_db_cached_geolocation db ip now).1 with
      | some e =>
        rw [resolve_db_hit api ip now mem db e hpriv hmem hdb]
        exact Nat.zero_le 1
      | none =>
        rw [resolve_fetch api ip now mem db hpriv hmem hdb]
        cases pyTruthy (api ip).1 || pyTruthy (api ip).2 <;> simp

/-- Reading the in-process cache right after `cache_geolocation` wrote it. -/
theorem mem_cache_read_after_write (mem : List (String × MemCacheEntry))
    (ip : String) (c ci : Option String) (t now : Nat) :
    get_cached_geolocation (cache_geolocation mem ip c ci t) ip now =
      if now < t + memTimeout then some ⟨c, ci, t⟩ else none := by
  unfold cache_geolocation get_cached_geolocation
  simp [List.lookup]

/-- `entUpds` over a snoc runs the last update last. -/
theorem entUpds_append_single (vs : List Upd) (u : Upd) (now : Nat)
    (e : SuspiciousIP) :
    entUpds (vs ++ [u]) now e = entUpd u now (entUpds vs now e) := by
  unfold entUpds
  rw [List.foldl_append]
  rfl

/-- `entUpds` over a cons runs the first update first. -/
theorem entUpds_cons (u : Upd) (rest : List Upd) (now : Nat) (e : SuspiciousIP) :
    entUpds (u :: rest) now e = entUpds rest now (entUpd u now e) := rfl

/-- `applyUpds` over a snoc performs the last upsert last. -/
theorem applyUpds_append_single (vs : List Upd) (u : Upd) (now : Nat)
    (reg : List SuspiciousIP) :
    applyUpds (vs ++ [u]) now reg =
      upsertSuspicious (applyUpds vs now reg) u now := by
  unfold applyUpds
  rw [List.foldl_append]
  rfl

/-- `applyUpds` over a cons performs the first upsert first. -/
theorem applyUpds_cons (u : Upd) (rest : List Upd) (now : Nat)
    (reg : List SuspiciousIP) :
    applyUpds (u :: rest) now reg =
      applyUpds rest now (upsertSuspicious reg u now) := rfl

/-- Fields one heuristic update never touches. -/
theorem entUpd_fixed (u : Upd) (now : Nat) (e : SuspiciousIP) :
    (entUpd u now e).ip_address = e.ip_address ∧
    (entUpd u now e).first_detected = e.first_detected ∧
    (entUpd u now e).is_active = e.is_active ∧
    (entUpd u now e).sensitive_paths = e.sensitive_paths ∧
    (entUpd u now e).country = e.country ∧
    (entUpd u now e).city = e.city := by
  unfold entUpd
  split <;> simp

/-- Fields a whole candidate list never touches. -/
theorem entUpds_fixed (us : List Upd) (now : Nat) (e : SuspiciousIP) :
    (entUpds us now e).ip_address = e.ip_address ∧
    (entUpds us now e).first_detected = e.first_detected ∧
    (entUpds us now e).is_active = e.is_active ∧
    (entUpds us now e).sensitive_paths = e.sensitive_paths ∧
    (entUpds us now e).country = e.country ∧
    (entUpds us now e).city = e.city := by
  induction us generalizing e with
  | nil => exact ⟨rfl, rfl, rfl, rfl, rfl, rfl⟩
  | cons u rest ih =>
    rw [entUpds_cons]
    obtain ⟨a1, a2, a3, a4, a5, a6⟩ := ih (entUpd u now e)
    obtain ⟨b1, b2, b3, b4, b5, b6⟩ := entUpd_fixed u now e
    exact ⟨a1.trans b1, a2.trans b2, a3.trans b3, a4.trans b4,
      a5.trans b5, a6.trans b6⟩

/-- Fields the cleanup step never touches. -/
theorem cleanFn_fixed (now age : Nat) (e : SuspiciousIP) :
    (cleanFn now age e).ip_address = e.ip_address ∧
    (cleanFn now age e).first_detected = e.first_detected ∧
    (cleanFn now age e).last_detected = e.last_detected := by
  unfold cleanFn
  split <;> simp

/-- An update on its matching row. -/
theorem entUpd_match (u : Upd) (now : Nat) (e : SuspiciousIP)
    (h : e.ip_address = u.ip) :
    entUpd u now e =
      { e with reason := u.reason, request_count := u.cnt,
               last_detected := now } := by
  unfold entUpd
  rw [if_pos h]

/-- An update on any other row. -/
theorem entUpd_nomatch {u : Upd} {now : Nat} {e : SuspiciousIP}
    (h : e.ip_address ≠ u.ip) :
    entUpd u now e = e := by
  unfold entUpd
  rw [if_neg h]

/-- One update is idempotent pointwise. -/
theorem entUpd_idem (u : Upd) (now : Nat) (e : SuspiciousIP) :
    entUpd u now (entUpd u now e) = entUpd u now e := by
  by_cases h : e.ip_address = u.ip <;> simp [entUpd, h]

/-- Intervening updates are absorbed by a final matching update, since they
only touch the fields the final update overwrites. -/
theorem entUpd_absorb (u : Upd) (vs : List Upd) (now : Nat) (e : SuspiciousIP)
    (h : e.ip_address = u.ip) :
    entUpd u now (entUpds vs now e) = entUpd u now e := by
  obtain ⟨h1, h2, h3, h4, h5, h6⟩ := entUpds_fixed vs now e
  rw [entUpd_match u now _ (h1.trans h), entUpd_match u now e h]
  exact SuspiciousIP.ext h1 rfl rfl h2 rfl h3 h4 h5 h6

/-- A fresh row already carries its creating update's values. -/
theorem entUpd_fresh (u : Upd) (now : Nat) :
    entUpd u now (freshS u now) = freshS u now := by
  simp [entUpd, freshS]

/-- Updates visit only the listed addresses. -/
theorem entUpds_not_mem (us : List Upd) (now : Nat) (x : SuspiciousIP)
    (h : x.ip_address ∉ updKeys us) :
    entUpds us now x = x := by
  induction us generalizing x with
  | nil => rfl
  | cons u rest ih =>
    simp only [updKeys, List.map_cons, List.mem_cons] at h
    push_neg at h
    rw [entUpds_cons, entUpd_nomatch h.1]
    exact ih x h.2

/-- `upsertSuspicious` preserves the ip column of a map-updated registry. -/
theorem ipsOf_map_entUpd (reg : List SuspiciousIP) (u : Upd) (now : Nat) :
    ipsOf (reg.map (entUpd u now)) = ipsOf reg := by
  unfold ipsOf
  rw [List.map_map]
  apply List.map_congr_left
  intro e _
  exact (entUpd_fixed u now e).1

/-- An upsert never loses an address. -/
theorem upsert_keeps_ips (reg : List SuspiciousIP) (u : Upd) (now : Nat)
    (a : String) (h : a ∈ ipsOf reg) :
    a ∈ ipsOf (upsertSuspicious reg u now) := by
  unfold upsertSuspicious
  split
  · rw [ipsOf_map_entUpd]
    exact h
  · unfold ipsOf at *
    rw [List.map_append]
    exact List.mem_append_left _ h

/-- An upsert establishes its own address. -/
theorem upsert_mem_key (reg : List SuspiciousIP) (u : Upd) (now : Nat) :
    u.ip ∈ ipsOf (upsertSuspicious reg u now) := by
  by_cases hmem : reg.any (fun e => e.ip_address = u.ip) = true
  · rcases List.any_eq_true.mp hmem with ⟨e, he, hee⟩
    simp only [decide_eq_true_eq] at hee
    unfold upsertSuspicious
    rw [if_pos hmem, ipsOf_map_entUpd]
    exact List.mem_map.mpr ⟨e, he, hee⟩
  · unfold upsertSuspicious
    rw [if_neg hmem]
    unfold ipsOf
    rw [List.map_append]
    exact List.mem_append_right _ (by simp [freshS])

/-- `applyUpds` never loses an address. -/
theorem applyUpds_keeps_ips (us : List Upd) (now : Nat)
    (reg : List SuspiciousIP) (a : String) (h : a ∈ ipsOf reg) :
    a ∈ ipsOf (applyUpds us now reg) := by
  induction us generalizing reg with
  | nil => exact h
  | cons u rest ih =>
    rw [applyUpds_cons]
    exact ih _ (upsert_keeps_ips reg u now a h)

/-- After `applyUpds`, every candidate address is present. -/
theorem applyUpds_has_keys (us : List Upd) (now : Nat)
    (reg : List SuspiciousIP) :
    ∀ u ∈ us, u.ip ∈ ipsOf (applyUpds us now reg) := by
  induction us generalizing reg with
  | nil => intro u hu; cases hu
  | cons v rest ih =>
    intro u hu
    rw [applyUpds_cons]
    rcases List.mem_cons.mp hu with rfl | hu
    · exact applyUpds_keeps_ips rest now _ u.ip (upsert_mem_key reg u now)
    · exact ih _ u hu

/-- On a registry that already contains the address, an upsert is a map. -/
theorem upsert_of_mem (reg : List SuspiciousIP) (u : Upd) (now : Nat)
    (h : u.ip ∈ ipsOf reg) :
    upsertSuspicious reg u now = reg.map (entUpd u now) := by
  unfold upsertSuspicious
  rw [if_pos]
  rcases List.mem_map.mp h with ⟨e, he, hee⟩
  exact List.any_eq_true.mpr ⟨e, he, by simp [hee]⟩

/-- On a registry containing every candidate address, `applyUpds` is the
map of the pointwise updates. -/
theorem applyUpds_of_keys (us : List Upd) (now : Nat)
    (reg : List SuspiciousIP) (h : ∀ u ∈ us, u.ip ∈ ipsOf reg) :
    applyUpds us now reg = reg.map (entUpds us now) := by
  induction us generalizing reg with
  | nil =>
    exact (List.map_id' reg).symm
  | cons u rest ih =>
    rw [applyUpds_cons, upsert_of_mem reg u now (h u (List.mem_cons_self u rest))]
    have hrest : ∀ v ∈ rest, v.ip ∈ ipsOf (reg.map (entUpd u now)) := by
      intro v hv
      rw [ipsOf_map_entUpd]
      exact h v (List.mem_cons_of_mem u hv)
    rw [ih _ hrest, List.map_map]
    apply List.map_congr_left
    intro e _
    rfl

/-- After `applyUpds`, a row at a candidate address carries a fresh
`last_detected` and is a fixed point of the pointwise updates (its values
are those of the last matching candidate). -/
theorem applyUpds_flagged (now : Nat) (us : List Upd)
    (reg : List SuspiciousIP) :
    ∀ e ∈ applyUpds us now reg, e.ip_address ∈ updKeys us →
      e.last_detected = now ∧ entUpds us now e = e := by
  induction us using List.reverseRecOn with
  | nil =>
    intro e _ hk
    simp [updKeys] at hk
  | append_singleton vs u ih =>
    intro e he hk
    rw [applyUpds_append_single] at he
    rw [updKeys, List.map_append] at hk
    by_cases hmem : (applyUpds vs now reg).any (fun x => x.ip_address = u.ip) = true
    · rw [upsertSuspicious, if_pos hmem] at he
      rcases List.mem_map.mp he with ⟨f, hf, rfl⟩
      by_cases hfi : f.ip_address = u.ip
      · constructor
        · rw [entUpd_match u now f hfi]
        · have hip : (entUpd u now f).ip_address = u.ip :=
            (entUpd_fixed u now f).1.trans hfi
          rw [entUpds_append_single, entUpd_absorb u vs now _ hip, entUpd_idem]
      · rw [entUpd_nomatch hfi] at hk ⊢
        have hkvs : f.ip_address ∈ updKeys vs := by
          rcases List.mem_append.mp hk with h | h
          · exact h
          · simp at h
            exact absurd h hfi
        obtain ⟨hl, hu⟩ := ih f hf hkvs
        refine ⟨hl, ?_⟩
        rw [entUpds_append_single, hu, entUpd_nomatch hfi]
    · rw [upsertSuspicious, if_neg hmem] at he
      rcases List.mem_append.mp he with hin | hfr
      · have hne : e.ip_address ≠ u.ip := by
          intro hc
          exact hmem (List.any_eq_true.mpr ⟨e, hin, by simp [hc]⟩)
        have hkvs : e.ip_address ∈ updKeys vs := by
          rcases List.mem_append.mp hk with h | h
          · exact h
          · simp at h
            exact absurd h hne
        obtain ⟨hl, hu⟩ := ih e hin hkvs
        refine ⟨hl, ?_⟩
        rw [entUpds_append_single, hu, entUpd_nomatch hne]
      · have hfr' : e = freshS u now := by simpa using hfr
        subst hfr'
        refine ⟨rfl, ?_⟩
        rw [entUpds_append_single, entUpd_absorb u vs now _ rfl, entUpd_fresh]

/-- The cleanup step is idempotent pointwise. -/
theorem cleanFn_idem (now age : Nat) (e : SuspiciousIP) :
    cleanFn now age (cleanFn now age e) = cleanFn now age e := by
  by_cases h : e.last_detected < now - age <;> simp [cleanFn, h]

/-- Heuristic application followed by cleanup is idempotent over any
candidate list, provided both runs use the same `now` (in the source, the
window is derived from `now`, so an identical window forces an identical
`now`). -/
theorem applyClean_idem (us : List Upd) (now age : Nat)
    (reg : List SuspiciousIP) :
    cleanup_old_suspicious_ips now age (applyUpds us now
      (cleanup_old_suspicious_ips now age (applyUpds us now reg))) =
    cleanup_old_suspicious_ips now age (applyUpds us now reg) := by
  have hkeys : ∀ u ∈ us, u.ip ∈ ipsOf (applyUpds us now reg) :=
    applyUpds_has_keys us now reg
  have hipsClean : ipsOf (cleanup_old_suspicious_ips now age
      (applyUpds us now reg)) = ipsOf (applyUpds us now reg) := by
    unfold cleanup_old_suspicious_ips ipsOf
    rw [List.map_map]
    apply List.map_congr_left
    intro e _
    exact (cleanFn_fixed now age e).1
  have hkeys2 : ∀ u ∈ us, u.ip ∈ ipsOf (cleanup_old_suspicious_ips now age
      (applyUpds us now reg)) := by
    intro u hu
    rw [hipsClean]
    exact hkeys u hu
  rw [applyUpds_of_keys us now _ hkeys2]
  unfold cleanup_old_suspicious_ips
  rw [List.map_map, List.map_map]
  apply List.map_congr_left
  intro e he
  show cleanFn now age (entUpds us now (cleanFn now age e)) = cleanFn now age e
  by_cases hk : e.ip_address ∈ updKeys us
  · obtain ⟨hl, hfix⟩ := applyUpds_flagged now us reg e he hk
    have hcl : cleanFn now age e = e := by
      unfold cleanFn
      rw [if_neg]
      rw [hl]
      exact Nat.not_lt.mpr (Nat.sub_le now age)
    rw [hcl, hfix]
    exact hcl
  · have hcle : (cleanFn now age e).ip_address ∉ updKeys us := by
      rw [(cleanFn_fixed now age e).1]
      exact hk
    rw [entUpds_not_mem us now _ hcle]
    exact cleanFn_idem now age e

/-- `detect_suspicious_ips` as one candidate pass followed by cleanup. -/
theorem detect_as_pipeline (logs : List RequestLog) (now age : Nat)
    (reg : List SuspiciousIP) :
    detect_suspicious_ips logs now age reg =
      cleanup_old_suspicious_ips now age
        (applyUpds (hfUpds logs (now - 3600) ++ sensUpds logs (now - 3600))
          now reg) := by
  unfold detect_suspicious_ips detect_scanning_behavior
    detect_sensitive_path_access detect_high_frequency_ips applyUpds
  rw [List.foldl_append]

/-- C5: running the detector twice over the identical window (in the code
the window is `[now - 1h, ∞)`, so an identical window means an identical
`now`) from the same stored state yields the identical registry — every
field of every row equal. -/
theorem C5_detector_idempotent (logs : List RequestLog) (now age : Nat)
    (reg : List SuspiciousIP) :
    detect_suspicious_ips logs now age (detect_suspicious_ips logs now age reg) =
      detect_suspicious_ips logs now age reg := by
  simp only [detect_as_pipeline]
  exact applyClean_idem _ now age reg

/-- An upsert never shrinks the registry. -/
theorem upsert_length_le (reg : List SuspiciousIP) (u : Upd) (now : Nat) :
    reg.length ≤ (upsertSuspicious reg u now).length := by
  unfold upsertSuspicious
  split
  · rw [List.length_map]
  · rw [List.length_append]
    exact Nat.le_add_right _ _

/-- `applyUpds` never shrinks the registry. -/
theorem applyUpds_length_le (us : List Upd) (now : Nat)
    (reg : List SuspiciousIP) :
    reg.length ≤ (applyUpds us now reg).length := by
  induction us generalizing reg with
  | nil => exact Nat.le_refl _
  | cons u rest ih =>
    rw [applyUpds_cons]
    exact Nat.le_trans (upsert_length_le reg u now) (ih _)

/-- An upsert acts pointwise on the pre-existing positions. -/
theorem upsert_getElem? (reg : List SuspiciousIP) (u : Upd) (now : Nat)
    (i : Nat) (hi : i < reg.length) :
    (upsertSuspicious reg u now)[i]? = (reg[i]?).map (entUpd u now) := by
  by_cases hmem : reg.any (fun e => e.ip_address = u.ip) = true
  · rw [upsertSuspicious, if_pos hmem]
    exact List.getElem?_map _ reg i
  · rw [upsertSuspicious, if_neg hmem, List.getElem?_append, if_pos hi,
      List.getElem?_eq_getElem hi]
    have hne : (reg[i]).ip_address ≠ u.ip := by
      intro hc
      exact hmem (List.any_eq_true.mpr ⟨reg[i], List.getElem_mem hi, by simp [hc]⟩)
    rw [Option.map_some', entUpd_nomatch hne]

/-- `applyUpds` acts pointwise on the pre-existing positions. -/
theorem applyUpds_getElem? (us : List Upd) (now : Nat)
    (reg : List SuspiciousIP) (i : Nat) (hi : i < reg.length) :
    (applyUpds us now reg)[i]? = (reg[i]?).map (entUpds us now) := by
  induction us generalizing reg with
  | nil =>
    show reg[i]? = (reg[i]?).map (entUpds [] now)
    rw [List.getElem?_eq_getElem hi, Option.map_some']
    rfl
  | cons u rest ih =>
    rw [applyUpds_cons,
      ih _ (Nat.lt_of_lt_of_le hi (upsert_length_le reg u now)),
      upsert_getElem? reg u now i hi, Option.map_map]
    cases hsome : reg[i]? with
    | none => rfl
    | some a =>
      simp only [Option.map_some', Function.comp_apply]
      rw [entUpds_cons]

/-- Updates only ever move `last_detected` forward to `now`. -/
theorem entUpds_last_mono (us : List Upd) (now : Nat) (x : SuspiciousIP)
    (h : x.last_detected ≤ now) :
    x.last_detected ≤ (entUpds us now x).last_detected ∧
    (entUpds us now x).last_detected ≤ now := by
  induction us generalizing x with
  | nil => exact ⟨Nat.le_refl _, h⟩
  | cons u rest ih =>
    rw [entUpds_cons]
    by_cases hm : x.ip_address = u.ip
    · have h1 : (entUpd u now x).last_detected = now := by
        rw [entUpd_match u now x hm]
      obtain ⟨a, b⟩ := ih (entUpd u now x) (Nat.le_of_eq h1)
      refine ⟨?_, b⟩
      calc x.last_detected ≤ now := h
        _ = (entUpd u now x).last_detected := h1.symm
        _ ≤ _ := a
    · rw [entUpd_nomatch hm]
      exact ih x h

/-- C6: across a detector run (hence, inductively, across any sequence of
runs at non-decreasing clock values), every pre-existing registry row keeps
its position, its address and its `first_detected`, while its
`last_detected` never decreases. The clock hypothesis says only that the
stored `auto_now` values cannot lie in the run's future. -/
theorem C6_first_last (logs : List RequestLog) (now age : Nat)
    (reg : List SuspiciousIP)
    (hclock : ∀ e ∈ reg, e.last_detected ≤ now) (i : Nat)
    (hi : i < reg.length) :
    reg.length ≤ (detect_suspicious_ips logs now age reg).length ∧
    ((detect_suspicious_ips logs now age reg).getD i dummyS).ip_address =
      (reg.getD i dummyS).ip_address ∧
    ((detect_suspicious_ips logs now age reg).getD i dummyS).first_detected =
      (reg.getD i dummyS).first_detected ∧
    (reg.getD i dummyS).last_detected ≤
      ((detect_suspicious_ips logs now age reg).getD i dummyS).last_detected := by
  rw [detect_as_pipeline]
  set us := hfUpds logs (now - 3600) ++ sensUpds logs (now - 3600) with hus
  have hget : (cleanup_old_suspicious_ips now age (applyUpds us now reg))[i]? =
      some (cleanFn now age (entUpds us now reg[i])) := by
    unfold cleanup_old_suspicious_ips
    rw [List.getElem?_map, applyUpds_getElem? us now reg i hi,
      List.getElem?_eq_getElem hi]
    rfl
  have hD : (cleanup_old_suspicious_ips now age
      (applyUpds us now reg)).getD i dummyS =
      cleanFn now age (entUpds us now reg[i]) := by
    rw [List.getD_eq_getElem?_getD, hget]
    rfl
  have hDreg : reg.getD i dummyS = reg[i] := by
    rw [List.getD_eq_getElem?_getD, List.getElem?_eq_getElem hi]
    rfl
  obtain ⟨f1, f2, _f3, _f4, _f5, _f6⟩ := entUpds_fixed us now reg[i]
  obtain ⟨c1, c2, c3⟩ := cleanFn_fixed now age (entUpds us now reg[i])
  refine ⟨?_, ?_, ?_, ?_⟩
  · unfold cleanup_old_suspicious_ips
    rw [List.length_map]
    exact applyUpds_length_le us now reg
  · rw [hD, hDreg, c1, f1]
  · rw [hD, hDreg, c2, f2]
  · rw [hD, hDreg, c3]
    exact (entUpds_last_mono us now reg[i]
      (hclock _ (List.getElem_mem hi))).1

/-- Witness for C6 at a concrete one-row registry and the concrete log
`logs0`. -/
theorem C6_first_last_witness :
    (∀ e ∈ reg1, e.last_detected ≤ 4000) ∧ 0 < reg1.length ∧
    (reg1.length ≤ (detect_suspicious_ips logs0 4000 86400 reg1).length ∧
     ((detect_suspicious_ips logs0 4000 86400 reg1).getD 0 dummyS).ip_address =
       (reg1.getD 0 dummyS).ip_address ∧
     ((detect_suspicious_ips logs0 4000 86400 reg1).getD 0 dummyS).first_detected =
       (reg1.getD 0 dummyS).first_detected ∧
     (reg1.getD 0 dummyS).last_detected ≤
       ((detect_suspicious_ips logs0 4000 86400 reg1).getD 0 dummyS).last_detected) :=
  ⟨by decide, by decide,
   C6_first_last logs0 4000 86400 reg1 (by decide) 0 (by decide)⟩

/-- C7 counterexample: with a storage fault in the first heuristic and a
second heuristic that would flag an address, the run ends with a plain
error status and an empty registry — the second heuristic never executed
(alone it would have flagged a row), and no partial-success list exists. -/
theorem C7_counterexample :
    (run_task [failStep, flagStep] []).1.status = "error" ∧
    (run_task [failStep, flagStep] []).2 = [] ∧
    (run_task [flagStep] []).2 ≠ [] := by
  refine ⟨rfl, rfl, by decide⟩

/-- C7 (amended): the heuristics all run inside one `try`, so the first
step that faults aborts every remaining step of the run — the outcome is
independent of the later steps — and the task returns
`{"status": "error", "message": <the fault>}` with the registry as already
mutated by the committed per-address transactions; there is no
partial-success report. A step that completes passes its registry to the
rest of the run. -/
theorem C7_fault_aborts_run (s : List SuspiciousIP → StepResult)
    (rest : List (List SuspiciousIP → StepResult)) (reg r : List SuspiciousIP)
    (msg : String) :
    (s reg = StepResult.exn msg r →
      run_task (s :: rest) reg = (⟨"error", msg⟩, r)) ∧
    (s reg = StepResult.ok r →
      run_task (s :: rest) reg = run_task rest r) := by
  constructor <;> intro h <;> simp [run_task, h]

/-- Witness for C7's amended theorem: the concrete faulting first step. -/
theorem C7_fault_aborts_run_witness :
    run_task [failStep, flagStep] [] = (⟨"error", "database error"⟩, []) :=
  (C7_fault_aborts_run failStep [flagStep] [] [] "database error").1 rfl

/-- C8 counterexample: 101 requests stamped exactly at the window end are
all counted by the code (whose filter has no upper bound), so the address
is flagged with `observed_count = 101`, while the claimed window
`[window_end - 1h, window_end)` contains none of them. -/
theorem C8_counterexample :
    ("9.9.9.9", 101) ∈ hfCandidates logs0 3600 ∧
    specWindowCount logs0 "9.9.9.9" 3600 7200 = 0 := by
  constructor
  · decide
  · decide

/-- C8 (amended): the high-frequency heuristic flags exactly the addresses
with strictly more than 100 log rows whose timestamp is at least
`window_end - 1 hour` — there is no upper bound, so rows at or after
`window_end` also count — and the candidate's count (which the upsert
stores as `request_count`) equals exactly that lower-bounded count. -/
theorem C8_high_frequency (logs : List RequestLog) (t : Nat) (ip : String)
    (c : Nat) :
    (ip, c) ∈ hfCandidates logs t ↔
      c = inWindowCount logs ip t ∧ 100 < c := by
  unfold hfCandidates
  constructor
  · intro h
    rcases List.mem_map.mp h with ⟨x, hx, hxe⟩
    rcases List.mem_filter.mp hx with ⟨_hxd, hxc⟩
    obtain ⟨rfl, rfl⟩ := Prod.mk.injEq .. |>.mp hxe.symm
    refine ⟨rfl, by simpa using hxc⟩
  · rintro ⟨rfl, hc⟩
    apply List.mem_map.mpr
    refine ⟨ip, List.mem_filter.mpr ⟨?_, by simpa using hc⟩, rfl⟩
    apply List.mem_dedup.mpr
    have hpos : 0 < inWindowCount logs ip t :=
      Nat.lt_trans (by norm_num) hc
    unfold inWindowCount at hpos
    obtain ⟨l, hl⟩ := List.exists_mem_of_length_pos hpos
    have hl2 := List.mem_filter.mp hl
    have : l.ip_address = ip := by
      have := hl2.2
      simp at this
      exact this.1
    exact List.mem_map.mpr ⟨l, hl2.1, this⟩

/-- C4 counterexample: a remote lookup that completes with both fields
absent is not written to either cache tier — on empty caches, after the
fetch (one lookup performed) both tiers are still empty, refuting the
claimed unconditional write. -/
theorem C4_counterexample :
    (get_geolocation_data napi "203.0.113.5" 0 [] []).lookups = 1 ∧
    (get_geolocation_data napi "203.0.113.5" 0 [] []).mem = [] ∧
    (get_geolocation_data napi "203.0.113.5" 0 [] []).db = [] := by
  refine ⟨?_, ?_, ?_⟩ <;> rfl

/-- C4 (amended): on the double-cache-miss path, the fetched result is
written to both cache tiers iff at least one of country/city is present
and non-empty (Python truthiness of `country or city`); when written, the
in-process tier stores the raw optional fields while the durable tier
stores `'Unknown'` in place of an absent field (via `save_to_db_cache`);
when both fields are absent the write is skipped entirely and both tiers
are left as they were. -/
theorem C4_cache_write (api : String → Option String × Option String)
    (ip : String) (now : Nat) (mem : List (String × MemCacheEntry))
    (db : List GeolocationCache)
    (hpriv : is_private_ip ip = false)
    (hmem : get_cached_geolocation mem ip now = none)
    (hdb : (get_db_cached_geolocation db ip now).1 = none) :
    (get_geolocation_data api ip now mem db).lookups = 1 ∧
    (get_geolocation_data api ip now mem db).country = (api ip).1 ∧
    (get_geolocation_data api ip now mem db).city = (api ip).2 ∧
    ((pyTruthy (api ip).1 || pyTruthy (api ip).2) = true →
      (get_geolocation_data api ip now mem db).mem =
        cache_geolocation mem ip (api ip).1 (api ip).2 now ∧
      (get_geolocation_data api ip now mem db).db =
        save_to_db_cache (get_db_cached_geolocation db ip now).2 ip
          (api ip).1 (api ip).2 now) ∧
    ((pyTruthy (api ip).1 || pyTruthy (api ip).2) = false →
      (get_geolocation_data api ip now mem db).mem = mem ∧
      (get_geolocation_data api ip now mem db).db =
        (get_db_cached_geolocation db ip now).2) := by
  rw [resolve_fetch api ip now mem db hpriv hmem hdb]
  cases htr : pyTruthy (api ip).1 || pyTruthy (api ip).2 <;> simp

/-- Witness for C4's amended theorem: a fetch of `("Testland", "Testville")`
on empty caches lands in both tiers. -/
theorem C4_cache_write_witness :
    is_private_ip "203.0.113.9" = false ∧
    get_cached_geolocation [] "203.0.113.9" 7 = none ∧
    (get_db_cached_geolocation [] "203.0.113.9" 7).1 = none ∧
    ((get_geolocation_data capi "203.0.113.9" 7 [] []).lookups = 1 ∧
     (get_geolocation_data capi "203.0.113.9" 7 [] []).country =
       (capi "203.0.113.9").1 ∧
     (get_geolocation_data capi "203.0.113.9" 7 [] []).city =
       (capi "203.0.113.9").2 ∧
     ((pyTruthy (capi "203.0.113.9").1 || pyTruthy (capi "203.0.113.9").2) = true →
       (get_geolocation_data capi "203.0.113.9" 7 [] []).mem =
         cache_geolocation [] "203.0.113.9" (capi "203.0.113.9").1
           (capi "203.0.113.9").2 7 ∧
       (get_geolocation_data capi "203.0.113.9" 7 [] []).db =
         save_to_db_cache (get_db_cached_geolocation [] "203.0.113.9" 7).2
           "203.0.113.9" (capi "203.0.113.9").1 (capi "203.0.113.9").2 7) ∧
     ((pyTruthy (capi "203.0.113.9").1 || pyTruthy (capi "203.0.113.9").2) = false →
       (get_geolocation_data capi "203.0.113.9" 7 [] []).mem = [] ∧
       (get_geolocation_data capi "203.0.113.9" 7 [] []).db =
         (get_db_cached_geolocation [] "203.0.113.9" 7).2)) :=
  ⟨by decide, rfl, rfl,
   C4_cache_write capi "203.0.113.9" 7 [] [] (by decide) rfl rfl⟩

/-- C9 counterexample: when the remote lookup yields no fields, nothing is
cached, so two back-to-back `resolve` calls for the same address (well
within any TTL) each perform their own remote lookup: two in total. -/
theorem C9_counterexample :
    (get_geolocation_data napi "203.0.113.5" 0 [] []).lookups +
      (get_geolocation_data napi "203.0.113.5" 0
        (get_geolocation_data napi "203.0.113.5" 0 [] []).mem
        (get_geolocation_data napi "203.0.113.5" 0 [] []).db).lookups = 2 := by
  rfl

/-- C9 (amended): two `resolve` calls for the same address, the second
within the in-process cache TTL of the first, perform at most one remote
lookup in total — provided the remote service reports at least one of
country/city for that address (otherwise nothing is cached and each call
performs its own lookup). -/
theorem C9_two_calls_one_lookup (api : String → Option String × Option String)
    (ip : String) (now1 now2 : Nat) (mem : List (String × MemCacheEntry))
    (db : List GeolocationCache)
    (httl : now2 < now1 + memTimeout)
    (htr : (pyTruthy (api ip).1 || pyTruthy (api ip).2) = true) :
    (get_geolocation_data api ip now1 mem db).lookups +
      (get_geolocation_data api ip now2
        (get_geolocation_data api ip now1 mem db).mem
        (get_geolocation_data api ip now1 mem db).db).lookups ≤ 1 := by
  cases hpriv : is_private_ip ip with
  | true =>
    simp [get_geolocation_data, hpriv]
  | false =>
    cases hmem : get_cached_geolocation mem ip now1 with
    | some e =>
      rw [resolve_mem_hit api ip now1 mem db e hpriv hmem]
      simpa using resolve_lookups_le_one api ip now2 mem db
    | none =>
      cases hdb : (get_db_cached_geolocation db ip now1).1 with
      | some e =>
        rw [resolve_db_hit api ip now1 mem db e hpriv hmem hdb]
        simpa using resolve_lookups_le_one api ip now2
          (cache_geolocation mem ip (some e.country) (some e.city) now1)
          (get_db_cached_geolocation db ip now1).2
      | none =>
        rw [resolve_fetch api ip now1 mem db hpriv hmem hdb, htr]
        simp only [if_true]
        have hhit : get_cached_geolocation
            (cache_geolocation mem ip (api ip).1 (api ip).2 now1) ip now2 =
            some ⟨(api ip).1, (api ip).2, now1⟩ := by
          rw [mem_cache_read_after_write]
          simp [httl]
        rw [resolve_mem_hit api ip now2
          (cache_geolocation mem ip (api ip).1 (api ip).2 now1)
          (save_to_db_cache (get_db_cached_geolocation db ip now1).2 ip
            (api ip).1 (api ip).2 now1)
          ⟨(api ip).1, (api ip).2, now1⟩ hpriv hhit]
        simp

/-- Witness for C9's amended theorem: two calls at times 0 and 10 on empty
caches with a responsive remote service perform one lookup in total. -/
theorem C9_two_calls_one_lookup_witness :
    (10 : Nat) < 0 + memTimeout ∧
    (pyTruthy (capi "203.0.113.9").1 || pyTruthy (capi "203.0.113.9").2) = true ∧
    (get_geolocation_data capi "203.0.113.9" 0 [] []).lookups +
      (get_geolocation_data capi "203.0.113.9" 10
        (get_geolocation_data capi "203.0.113.9" 0 [] []).mem
        (get_geolocation_data capi "203.0.113.9" 0 [] []).db).lookups ≤ 1 :=
  ⟨by decide, rfl,
   C9_two_calls_one_lookup capi "203.0.113.9" 0 10 [] [] (by decide) rfl⟩

/-- C1: for every inbound request whose resolved client address is in the
block list, the middleware returns the 403 response whose body contains the
address and leaves every store untouched (in particular no `RequestLog` row
is created); for a request whose address is not blocked, the wrapped
application's response is returned and exactly one `RequestLog` row for
this request is appended (ingestion follows normal handling). -/
theorem C1_request_gate (api : String → Option String × Option String)
    (inner : HttpRequest → String) (now : Nat) (st : MwState)
    (req : HttpRequest) (a : String)
    (hip : get_client_ip req.xff req.remoteAddr = some a) :
    (is_ip_blocked st.blocked (some a) = true →
      middleware_call api inner now st req =
        (GateResponse.forbidden
          ("Access denied. Your IP address (" ++ a ++ ") has been blocked."),
         st)) ∧
    (is_ip_blocked st.blocked (some a) = false →
      (middleware_call api inner now st req).1 = GateResponse.app (inner req) ∧
      (middleware_call api inner now st req).2.log =
        st.log ++ [⟨a, now, req.path,
          (get_geolocation_data api a now st.mem st.db).country,
          (get_geolocation_data api a now st.mem st.db).city⟩] ∧
      (middleware_call api inner now st req).2.blocked = st.blocked) := by
  constructor
  · intro hb
    unfold middleware_call
    rw [hip]
    simp [hb, pyStr]
  · intro hb
    unfold middleware_call
    rw [hip]
    simp [hb, log_request]

/-- Witness for C1 at concrete requests: a blocked address is rejected with
a message carrying it, an unblocked one is served and logged. -/
theorem C1_request_gate_witness :
    (is_ip_blocked st0.blocked (some "1.2.3.4") = true →
      middleware_call capi inner0 5 st0 req0 =
        (GateResponse.forbidden
          ("Access denied. Your IP address (" ++ "1.2.3.4" ++ ") has been blocked."),
         st0)) ∧
    (is_ip_blocked st0.blocked (some "8.8.8.8") = false →
      (middleware_call capi inner0 5 st0 req1).1 = GateResponse.app (inner0 req1) ∧
      (middleware_call capi inner0 5 st0 req1).2.log =
        st0.log ++ [⟨"8.8.8.8", 5, req1.path,
          (get_geolocation_data capi "8.8.8.8" 5 st0.mem st0.db).country,
          (get_geolocation_data capi "8.8.8.8" 5 st0.mem st0.db).city⟩] ∧
      (middleware_call capi inner0 5 st0 req1).2.blocked = st0.blocked) :=
  ⟨(C1_request_gate capi inner0 5 st0 req0 "1.2.3.4" rfl).1,
   (C1_request_gate capi inner0 5 st0 req1 "8.8.8.8" rfl).2⟩

/-- C2: blocking the same (syntactically valid) address twice through the
`block_ip` command is idempotent: after either call exactly one `BlockedIP`
row with that address exists and gate membership holds; the second call
leaves the store unchanged (no duplicate) and merely counts the address as
skipped — no branch of `handle` raises. -/
theorem C2_block_idempotent (valid : String → Bool) (store : List BlockedIP)
    (A : String) (reason : Option String) (now1 now2 : Nat)
    (hv : valid A = true)
    (huniq : store.countP (fun b => b.ip_address = A) ≤ 1) :
    ((block_ip_handle valid store [A] reason now1).store.countP
        (fun b => b.ip_address = A) = 1) ∧
    is_ip_blocked (block_ip_handle valid store [A] reason now1).store
        (some A) = true ∧
    (block_ip_handle valid
        (block_ip_handle valid store [A] reason now1).store
        [A] reason now2).store =
      (block_ip_handle valid store [A] reason now1).store ∧
    (block_ip_handle valid
        (block_ip_handle valid store [A] reason now1).store
        [A] reason now2).skipped_count = 1 := by
  have hfold : ∀ (s : List BlockedIP) (n : Nat),
      block_ip_handle valid s [A] reason n =
        block_ip_step valid reason n ⟨s, 0, 0⟩ A := by
    intro s n; rfl
  rw [hfold, hfold]
  cases hmem : store.any (fun b => b.ip_address = A) with
  | true =>
    have hpos : 0 < store.countP (fun b => b.ip_address = A) := by
      rcases List.any_eq_true.mp hmem with ⟨b, hb, hba⟩
      exact List.countP_pos_iff.mpr ⟨b, hb, hba⟩
    have hone : store.countP (fun b => b.ip_address = A) = 1 :=
      Nat.le_antisymm huniq hpos
    simp [block_ip_step, hv, hmem, is_ip_blocked, hone]
  | false =>
    have hzero : store.countP (fun b => b.ip_address = A) = 0 := by
      rw [List.countP_eq_zero]
      intro b hb
      have := List.any_eq_false.mp hmem b hb
      simpa using this
    have hmem' : (store ++ [(⟨A, now1, reason⟩ : BlockedIP)]).any
        (fun b => b.ip_address = A) = true := by
      simp
    simp [block_ip_step, hv, hmem, hmem', is_ip_blocked,
      List.countP_append, hzero]

/-- Witness for C2 at the concrete address `5.6.7.8` over an empty store. -/
theorem C2_block_idempotent_witness :
    (fun (_ : String) => true) "5.6.7.8" = true ∧
    ([] : List BlockedIP).countP (fun b => b.ip_address = "5.6.7.8") ≤ 1 ∧
    (((block_ip_handle (fun _ => true) [] ["5.6.7.8"] none 3).store.countP
        (fun b => b.ip_address = "5.6.7.8") = 1) ∧
     is_ip_blocked (block_ip_handle (fun _ => true) [] ["5.6.7.8"] none 3).store
        (some "5.6.7.8") = true ∧
     (block_ip_handle (fun _ => true)
        (block_ip_handle (fun _ => true) [] ["5.6.7.8"] none 3).store
        ["5.6.7.8"] none 9).store =
       (block_ip_handle (fun _ => true) [] ["5.6.7.8"] none 3).store ∧
     (block_ip_handle (fun _ => true)
        (block_ip_handle (fun _ => true) [] ["5.6.7.8"] none 3).store
        ["5.6.7.8"] none 9).skipped_count = 1) :=
  ⟨rfl, by decide,
   C2_block_idempotent (fun _ => true) [] "5.6.7.8" none 3 9 rfl (by decide)⟩

end IpTracking
